import Mathlib

/-!
Shallow embedding of the two-stage ARMv9 page-table-walk core of
`page-table-walker` (src/ptw_viz): the 4 KB granule address model
(`models/granule.py`, with the thin wrappers of the absent
`models/address.py` modelled from the spec), the descriptor model
(`models/descriptor.py`), the registers (`models/registers.py`), the
fault model and permission gate (`simulator/faults.py`), the stage-2
walker (`simulator/stage2.py`), the stage-1 walker
(`simulator/stage1.py`) and the orchestrator (`simulator/walker.py`).

Machine integers are `Nat` (all Python ints here are non-negative and
the source performs no overflowing arithmetic); Python dicts of
translation tables are association lists with `dict.get(addr, 0)`
lookup; `None`-able fields are `Option`.  Human-readable string fields
(messages, purposes, descriptions) of the source records are omitted:
no claim concerns them.  The per-level loops of the walkers are coded
as structural recursion on the number of remaining levels
(`4 - level`), which reproduces Python's `for level in range(start, 4)`
including the fall-through return after level 3.
-/

namespace PTW

/-! ### Address model: models/granule.py (4 KB granule) -/

/-- `GRANULE_4KB_CONFIG.level_shifts = (39, 30, 21, 12)` from
`models/granule.py`. -/
def levelShift : Nat → Nat
  | 0 => 39
  | 1 => 30
  | 2 => 21
  | _ => 12

/-- `calculate_index` from `models/granule.py`, specialised to the 4 KB
granule (`min_level = 0`, `index_bits = 9`). -/
def calculate_index (address level : Nat) : Nat :=
  if level > 3 then 0
  else (address >>> levelShift level) &&& 0x1FF

/-- `calculate_page_offset` from `models/granule.py` (4 KB:
`offset_bits = 12`). -/
def calculate_page_offset (address : Nat) : Nat :=
  address &&& 0xFFF

/-- `calculate_block_offset` from `models/granule.py` (4 KB
`block_offsets = {1: 0x3FFFFFFF, 2: 0x1FFFFF}`, falling back to the
page offset at other levels). -/
def calculate_block_offset (address level : Nat) : Nat :=
  if level == 1 then address &&& 0x3FFFFFFF
  else if level == 2 then address &&& 0x1FFFFF
  else calculate_page_offset address

/-! ### models/address.py (absent from src/, wrappers modelled from the
spec) -/

/-- Modelled from the spec: `models/address.py` is not in `src/` (it is
imported by the walkers and the parser).  §3: a `VirtualAddress` is a
64-bit value carrying its `va_bits` configuration (granule fixed at
4 KB here, the only granule the claims exercise). -/
structure VirtualAddress where
  value : Nat
  va_bits : Nat := 48
deriving DecidableEq, Repr

/-- Modelled from the spec: §4.1 `index(addr, level)` delegates to the
granule's `calculate_index`. -/
def VirtualAddress.get_index (va : VirtualAddress) (level : Nat) : Nat :=
  calculate_index va.value level

/-- Modelled from the spec: §4.1 `page_offset(addr)`. -/
def VirtualAddress.page_offset (va : VirtualAddress) : Nat :=
  calculate_page_offset va.value

/-- Modelled from the spec: §4.1 `block_offset(addr, 1)` (1 GB block at
4 KB granule). -/
def VirtualAddress.l1_block_offset (va : VirtualAddress) : Nat :=
  calculate_block_offset va.value 1

/-- Modelled from the spec: §4.1 `block_offset(addr, 2)` (2 MB block at
4 KB granule). -/
def VirtualAddress.l2_block_offset (va : VirtualAddress) : Nat :=
  calculate_block_offset va.value 2

/-- Modelled from the spec: §4.1 `uses_ttbr1(va)`: the top
`64 - va_bits` bits are all set. -/
def VirtualAddress.uses_ttbr1 (va : VirtualAddress) : Bool :=
  (va.value >>> va.va_bits) == (1 <<< (64 - va.va_bits)) - 1

/-- Modelled from the spec: §4.1 descriptor address
`table_base + index * 8` (`calculate_descriptor_address` of
`models/address.py`, called with `descriptor_size=8`). -/
def calculate_descriptor_address
    (table_base index descriptor_size : Nat) : Nat :=
  table_base + index * descriptor_size

/-- Modelled from the spec: an IPA is handled with the same 4 KB
slicing functions (the walkers construct
`IntermediatePhysicalAddress(value)` with default configuration).  IPA
values are carried as plain `Nat` below; these are its accessors. -/
def ipa_get_index (ipa level : Nat) : Nat :=
  calculate_index ipa level

/-! ### Descriptor model: models/descriptor.py -/

/-- `DescriptorType` from `models/descriptor.py`. -/
inductive DescriptorType where
  | INVALID
  | TABLE
  | BLOCK
  | PAGE
deriving DecidableEq, Repr

namespace Descriptor

/-- `Descriptor.is_valid`: bit 0 set. -/
def is_valid (value : Nat) : Bool :=
  (value &&& 0x1) == 1

/-- `Descriptor.is_table`: bits[1:0] = 0b11 at level < 3. -/
def is_table (value level : Nat) : Bool :=
  level < 3 && (value &&& 0x3) == 0b11

/-- `Descriptor.is_block`: bits[1:0] = 0b01 at level 1 or 2. -/
def is_block (value level : Nat) : Bool :=
  (level == 1 || level == 2) && (value &&& 0x3) == 0b01

/-- `Descriptor.is_page`: bits[1:0] = 0b11 at level 3. -/
def is_page (value level : Nat) : Bool :=
  level == 3 && (value &&& 0x3) == 0b11

/-- `Descriptor.descriptor_type` from `models/descriptor.py`. -/
def descriptor_type (value level : Nat) : DescriptorType :=
  if !is_valid value then .INVALID
  else if is_table value level then .TABLE
  else if is_block value level then .BLOCK
  else if is_page value level then .PAGE
  else .INVALID

end Descriptor

/-- `TableDescriptor.next_table_address`: bits [47:12]. -/
def next_table_address (value : Nat) : Nat :=
  value &&& 0x0000FFFFFFFFF000

/-- `TableDescriptor.ap_table`: APTable[62:61]. -/
def ap_table (value : Nat) : Nat :=
  (value >>> 61) &&& 0x3

/-- `TableDescriptor.uxn_table`: bit 60. -/
def uxn_table (value : Nat) : Bool :=
  ((value >>> 60) &&& 1) == 1

/-- `TableDescriptor.pxn_table`: bit 59. -/
def pxn_table (value : Nat) : Bool :=
  ((value >>> 59) &&& 1) == 1

/-- `PageDescriptor.output_address`: bits [47:12]. -/
def page_output_address (value : Nat) : Nat :=
  value &&& 0x0000FFFFFFFFF000

/-- `BlockDescriptor.output_address`: level-dependent mask. -/
def block_output_address (value level : Nat) : Nat :=
  if level == 1 then value &&& 0x0000FFFFC0000000
  else if level == 2 then value &&& 0x0000FFFFFFE00000
  else value &&& 0x0000FFFFFFFFF000

/-- Leaf `ap`: AP[7:6] (`PageDescriptor.ap` / `BlockDescriptor.ap`). -/
def descriptor_ap (value : Nat) : Nat :=
  (value >>> 6) &&& 0x3

/-- Leaf `uxn`: bit 54. -/
def descriptor_uxn (value : Nat) : Bool :=
  ((value >>> 54) &&& 1) == 1

/-- Leaf `pxn`: bit 53. -/
def descriptor_pxn (value : Nat) : Bool :=
  ((value >>> 53) &&& 1) == 1

/-- `AccessPermissions` from `models/descriptor.py`. -/
structure AccessPermissions where
  read_el0 : Bool
  write_el0 : Bool
  read_el1 : Bool
  write_el1 : Bool
  execute_el0 : Bool
  execute_el1 : Bool
deriving DecidableEq, Repr

/-- `AccessPermissions.from_ap_bits` from `models/descriptor.py`. -/
def AccessPermissions.from_ap_bits (ap : Nat) (uxn pxn : Bool) :
    AccessPermissions :=
  if ap == 0b00 then
    ⟨false, false, true, true, !uxn, !pxn⟩
  else if ap == 0b01 then
    ⟨true, true, true, true, !uxn, !pxn⟩
  else if ap == 0b10 then
    ⟨false, false, true, false, !uxn, !pxn⟩
  else
    ⟨true, false, true, false, !uxn, !pxn⟩

/-! ### Fault model: simulator/faults.py -/

/-- `FaultType` from `simulator/faults.py`. -/
inductive FaultType where
  | TRANSLATION_FAULT
  | PERMISSION_FAULT
  | ADDRESS_SIZE_FAULT
  | ACCESS_FLAG_FAULT
deriving DecidableEq, Repr

/-- `AccessType` from `simulator/faults.py`. -/
inductive AccessType where
  | READ
  | WRITE
  | EXECUTE
deriving DecidableEq, Repr

/-- `FaultRecord` from `simulator/faults.py` (`message` omitted). -/
structure FaultRecord where
  fault_type : FaultType
  stage : Nat
  level : Nat
  address : Nat
  access_type : Option AccessType := none
  far_el1 : Option Nat := none
  far_el2 : Option Nat := none
deriving DecidableEq, Repr

/-- `check_permission` from `simulator/faults.py`. -/
def check_permission (access_type : AccessType) (ap : Nat)
    (uxn pxn : Bool) (is_el0 : Bool) : Bool :=
  match access_type with
  | .EXECUTE => if is_el0 then !uxn else !pxn
  | .READ => if is_el0 then ap == 0b01 || ap == 0b11 else true
  | .WRITE => if is_el0 then ap == 0b01 else ap == 0b00 || ap == 0b01

/-! ### Translation table store -/

/-- Translation tables: a read-only mapping `PA -> 64-bit descriptor
word`, a Python dict in the source, an association list here. -/
abbrev TranslationTables := List (Nat × Nat)

/-- `_read_descriptor` of both walkers: `dict.get(address, 0)` -
missing entries read as zero. -/
def read_descriptor (tables : TranslationTables) (address : Nat) : Nat :=
  match tables.find? (fun e => e.1 == address) with
  | some e => e.2
  | none => 0

/-! ### Registers: models/registers.py -/

/-- `TTBR` from `models/registers.py` (only the raw value; `asid` and
`cnp` are unused by the walkers). -/
structure TTBR where
  value : Nat
deriving DecidableEq, Repr

/-- `TTBR.baddr`: bits [47:1]. -/
def TTBR.baddr (t : TTBR) : Nat :=
  t.value &&& 0x0000FFFFFFFFFFFE

/-- `TCR` from `models/registers.py` (granule fields fixed at 4 KB). -/
structure TCR where
  t0sz : Nat := 16
  t1sz : Nat := 16
deriving DecidableEq, Repr

/-- `TCR.va_bits_t0`. -/
def TCR.va_bits_t0 (tcr : TCR) : Nat := 64 - tcr.t0sz

/-- `TCR.va_bits_t1`. -/
def TCR.va_bits_t1 (tcr : TCR) : Nat := 64 - tcr.t1sz

/-- `TCR.starting_level`: VA bits >= 40 -> L0, >= 31 -> L1, else L2. -/
def TCR.starting_level (tcr : TCR) (for_ttbr1 : Bool) : Nat :=
  let va_bits := if for_ttbr1 then tcr.va_bits_t1 else tcr.va_bits_t0
  if va_bits >= 40 then 0
  else if va_bits >= 31 then 1
  else 2

/-- `VTCR` from `models/registers.py`. -/
structure VTCR where
  t0sz : Nat := 16
  sl0 : Nat := 0
deriving DecidableEq, Repr

/-- `VTCR.starting_level` is `sl0`. -/
def VTCR.starting_level (v : VTCR) : Nat := v.sl0

/-- `RegisterState` from `models/registers.py`. -/
structure RegisterState where
  ttbr0_el1 : TTBR
  ttbr1_el1 : TTBR
  vttbr_el2 : TTBR
  tcr_el1 : TCR
  vtcr_el2 : VTCR
deriving DecidableEq, Repr

/-- `RegisterState.get_stage1_table_base`. -/
def RegisterState.get_stage1_table_base (rs : RegisterState)
    (uses_ttbr1 : Bool) : Nat :=
  if uses_ttbr1 then rs.ttbr1_el1.baddr else rs.ttbr0_el1.baddr

/-- `RegisterState.get_stage2_table_base`. -/
def RegisterState.get_stage2_table_base (rs : RegisterState) : Nat :=
  rs.vttbr_el2.baddr

/-! ### Stage-2 walker: simulator/stage2.py -/

/-- `Stage2WalkEvent` (string `description` omitted). -/
structure Stage2WalkEvent where
  event_id : Nat
  level : Nat
  table_base_pa : Nat
  index : Nat
  descriptor_address : Nat
  descriptor_value : Nat
  descriptor_type : DescriptorType
  output_address : Nat
deriving DecidableEq, Repr

/-- `Stage2WalkResult` (IPA and PA carried as raw values). -/
structure Stage2WalkResult where
  success : Bool
  input_ipa : Nat
  output_pa : Option Nat := none
  events : List Stage2WalkEvent := []
  fault : Option FaultRecord := none
deriving DecidableEq, Repr

/-- `Stage2Walker` field state; the mutable `event_counter` is threaded
explicitly through `walk`. -/
structure Stage2Walker where
  vttbr_base : Nat
  starting_level : Nat := 0
  translation_tables : TranslationTables
deriving Repr

/-- The Python local `descriptor_addr` of one `Stage2Walker.walk`
iteration: `calculate_descriptor_address(current_table_pa, index, 8)`
with `index = ipa.get_index(level)`. -/
def Stage2Walker.descriptor_addr (ipa level current_table_pa : Nat) :
    Nat :=
  calculate_descriptor_address current_table_pa
    (ipa_get_index ipa level) 8

/-- The Python local `descriptor_value` of one `Stage2Walker.walk`
iteration: the table read at `descriptor_addr`. -/
def Stage2Walker.descriptor_value (w : Stage2Walker)
    (ipa level current_table_pa : Nat) : Nat :=
  read_descriptor w.translation_tables
    (Stage2Walker.descriptor_addr ipa level current_table_pa)

/-- The Python local `output_base` of the leaf branch of
`Stage2Walker.walk`: `data_desc.output_address`. -/
def leaf_output_address (value level : Nat) : Nat :=
  if Descriptor.is_block value level then
    block_output_address value level
  else page_output_address value

/-- The leaf branch's block/page offset union: `final_pa` (stage 2) or
`final_ipa` (stage 1). -/
def leaf_final_address (value level address : Nat) : Nat :=
  if level == 1 then
    leaf_output_address value level ||| calculate_block_offset address 1
  else if level == 2 then
    leaf_output_address value level ||| calculate_block_offset address 2
  else
    leaf_output_address value level ||| calculate_page_offset address

/-- Loop body of `Stage2Walker.walk`: `for level in
range(starting_level, 4)`, coded on the number of remaining levels.
`fuel = 0` is the fall-through after level 3 ("Should not reach here
with valid tables").  Returns the result together with the new event
counter.  The Python locals (`index`, `descriptor_addr`,
`descriptor_value`, `output_base`, `final_pa`) are the helper
definitions above. -/
def Stage2Walker.walkFrom (w : Stage2Walker) (ipa : Nat) :
    Nat → Nat → Nat → Nat → List Stage2WalkEvent →
    Stage2WalkResult × Nat
  | 0, _, _, counter, events =>
    (⟨false, ipa, none, events,
      some ⟨.TRANSLATION_FAULT, 2, 3, ipa, none, none, none⟩⟩, counter)
  | fuel + 1, level, current_table_pa, counter, events =>
    if !Descriptor.is_valid (w.descriptor_value ipa level
        current_table_pa) then
      -- Invalid descriptor: Translation Fault at this level.
      (⟨false, ipa, none,
        events ++ [⟨counter + 1, level, current_table_pa,
          ipa_get_index ipa level,
          Stage2Walker.descriptor_addr ipa level current_table_pa,
          w.descriptor_value ipa level current_table_pa,
          Descriptor.descriptor_type
            (w.descriptor_value ipa level current_table_pa) level, 0⟩],
        some ⟨.TRANSLATION_FAULT, 2, level, ipa, none, none,
          some ipa⟩⟩, counter + 1)
    else if Descriptor.is_table (w.descriptor_value ipa level
        current_table_pa) level then
      w.walkFrom ipa fuel (level + 1)
        (next_table_address (w.descriptor_value ipa level
          current_table_pa)) (counter + 1)
        (events ++ [⟨counter + 1, level, current_table_pa,
          ipa_get_index ipa level,
          Stage2Walker.descriptor_addr ipa level current_table_pa,
          w.descriptor_value ipa level current_table_pa,
          Descriptor.descriptor_type
            (w.descriptor_value ipa level current_table_pa) level,
          next_table_address (w.descriptor_value ipa level
            current_table_pa)⟩])
    else if Descriptor.is_page (w.descriptor_value ipa level
          current_table_pa) level
        || Descriptor.is_block (w.descriptor_value ipa level
          current_table_pa) level then
      (⟨true, ipa,
        some (leaf_final_address (w.descriptor_value ipa level
          current_table_pa) level ipa),
        events ++ [⟨counter + 1, level, current_table_pa,
          ipa_get_index ipa level,
          Stage2Walker.descriptor_addr ipa level current_table_pa,
          w.descriptor_value ipa level current_table_pa,
          Descriptor.descriptor_type
            (w.descriptor_value ipa level current_table_pa) level,
          leaf_output_address (w.descriptor_value ipa level
            current_table_pa) level⟩],
        none⟩, counter + 1)
    else
      -- Valid word matching no branch (e.g. bits[1:0] = 01 at an
      -- illegal level): the Python loop body appends nothing and
      -- continues at the next level with the same table base (but the
      -- event counter was already incremented).
      w.walkFrom ipa fuel (level + 1) current_table_pa (counter + 1)
        events

/-- `Stage2Walker.walk` (the `access_type` argument of the source is
never consulted by the stage-2 walker and is dropped): walks levels
`starting_level..3` threading the event counter. -/
def Stage2Walker.walk (w : Stage2Walker) (ipa : Nat) (counter : Nat) :
    Stage2WalkResult × Nat :=
  w.walkFrom ipa (4 - w.starting_level) w.starting_level w.vttbr_base
    counter []

/-! ### Stage-1 walker: simulator/stage1.py -/

/-- `Stage1WalkEvent` (string `description` omitted). -/
structure Stage1WalkEvent where
  event_id : Nat
  level : Nat
  table_base_ipa : Nat
  table_base_pa : Nat
  index : Nat
  descriptor_address_pa : Nat
  descriptor_value : Nat
  descriptor_type : DescriptorType
  output_address : Nat
  s2_events : List Stage2WalkEvent := []
deriving DecidableEq, Repr

/-- `Stage1WalkResult`. -/
structure Stage1WalkResult where
  success : Bool
  input_va : VirtualAddress
  output_ipa : Option Nat := none
  events : List Stage1WalkEvent := []
  fault : Option FaultRecord := none
  final_permissions : Option AccessPermissions := none
deriving DecidableEq, Repr

/-- `Stage1Walker` field state; its `event_counter` and the shared
`stage2_walker.event_counter` are threaded explicitly. -/
structure Stage1Walker where
  ttbr_base : Nat
  stage2_walker : Stage2Walker
  starting_level : Nat := 0
  translation_tables : TranslationTables
deriving Repr

/-- The Python local `table_pa` of one `Stage1Walker.walk` iteration:
the nested stage-2 walk's `output_pa.value` (success guarantees the
option is populated). -/
def Stage1Walker.table_pa (w : Stage1Walker) (tbl s2c : Nat) : Nat :=
  ((w.stage2_walker.walk tbl s2c).1.output_pa).getD 0

/-- The Python local `descriptor_pa` of one `Stage1Walker.walk`
iteration. -/
def Stage1Walker.descriptor_pa (w : Stage1Walker) (va : VirtualAddress)
    (level tbl s2c : Nat) : Nat :=
  calculate_descriptor_address (w.table_pa tbl s2c)
    (va.get_index level) 8

/-- The Python local `descriptor_value` of one `Stage1Walker.walk`
iteration. -/
def Stage1Walker.descriptor_value (w : Stage1Walker)
    (va : VirtualAddress) (level tbl s2c : Nat) : Nat :=
  read_descriptor w.translation_tables (w.descriptor_pa va level tbl
    s2c)

/-- Loop body of `Stage1Walker.walk`: levels `starting_level..3`, coded
on the number of remaining levels.  State threaded through the loop:
current table IPA, the monotonic `uxn_limit` / `pxn_limit` /
`ap_limit` accumulators, the stage-1 and (shared) stage-2 event
counters, and the event list.  `fuel = 0` is the fall-through return
after level 3 ("Should not reach here").  The Python locals
(`table_pa`, `descriptor_pa`, `descriptor_value`, `output_base`,
`final_ipa`) are the helper definitions above. -/
def Stage1Walker.walkFrom (w : Stage1Walker) (va : VirtualAddress)
    (access_type : AccessType) (is_el0 : Bool) :
    Nat → Nat → Nat → Bool → Bool → Nat → Nat → Nat →
    List Stage1WalkEvent → Stage1WalkResult × Nat × Nat
  | 0, _, _, _, _, _, s1_counter, s2_counter, events =>
    (⟨false, va, none, events,
      some ⟨.TRANSLATION_FAULT, 1, 3, va.value, none, none, none⟩,
      none⟩, s1_counter, s2_counter)
  | fuel + 1, level, current_table_ipa, uxn_limit, pxn_limit, ap_limit,
      s1_counter, s2_counter, events =>
    -- First, translate the table IPA to PA using Stage 2.
    if !(w.stage2_walker.walk current_table_ipa s2_counter).1.success
    then
      -- Stage 2 fault while translating table address.
      (⟨false, va, none,
        events ++ [⟨s1_counter + 1, level, current_table_ipa, 0,
          va.get_index level, 0, 0, .INVALID, 0,
          (w.stage2_walker.walk current_table_ipa
            s2_counter).1.events⟩],
        (w.stage2_walker.walk current_table_ipa s2_counter).1.fault,
        none⟩, s1_counter + 1,
        (w.stage2_walker.walk current_table_ipa s2_counter).2)
    else if !Descriptor.is_valid (w.descriptor_value va level
        current_table_ipa s2_counter) then
      (⟨false, va, none,
        events ++ [⟨s1_counter + 1, level, current_table_ipa,
          w.table_pa current_table_ipa s2_counter, va.get_index level,
          w.descriptor_pa va level current_table_ipa s2_counter,
          w.descriptor_value va level current_table_ipa s2_counter,
          Descriptor.descriptor_type (w.descriptor_value va level
            current_table_ipa s2_counter) level, 0,
          (w.stage2_walker.walk current_table_ipa
            s2_counter).1.events⟩],
        some ⟨.TRANSLATION_FAULT, 1, level, va.value, none,
          some va.value, none⟩, none⟩, s1_counter + 1,
        (w.stage2_walker.walk current_table_ipa s2_counter).2)
    else if Descriptor.is_table (w.descriptor_value va level
        current_table_ipa s2_counter) level then
      -- Table descriptor: continue the walk, accumulating limits.
      w.walkFrom va access_type is_el0 fuel (level + 1)
        (next_table_address (w.descriptor_value va level
          current_table_ipa s2_counter))
        (if uxn_table (w.descriptor_value va level current_table_ipa
          s2_counter) then true else uxn_limit)
        (if pxn_table (w.descriptor_value va level current_table_ipa
          s2_counter) then true else pxn_limit)
        (if ap_table (w.descriptor_value va level current_table_ipa
            s2_counter) != 0 then
          max ap_limit (ap_table (w.descriptor_value va level
            current_table_ipa s2_counter))
        else ap_limit)
        (s1_counter + 1)
        (w.stage2_walker.walk current_table_ipa s2_counter).2
        (events ++ [⟨s1_counter + 1, level, current_table_ipa,
          w.table_pa current_table_ipa s2_counter, va.get_index level,
          w.descriptor_pa va level current_table_ipa s2_counter,
          w.descriptor_value va level current_table_ipa s2_counter,
          Descriptor.descriptor_type (w.descriptor_value va level
            current_table_ipa s2_counter) level,
          next_table_address (w.descriptor_value va level
            current_table_ipa s2_counter),
          (w.stage2_walker.walk current_table_ipa
            s2_counter).1.events⟩])
    else if Descriptor.is_page (w.descriptor_value va level
          current_table_ipa s2_counter) level
        || Descriptor.is_block (w.descriptor_value va level
          current_table_ipa s2_counter) level then
      -- Leaf: apply the accumulated permission limits, gate the
      -- access, then return the final IPA.
      if !check_permission access_type
          (descriptor_ap (w.descriptor_value va level current_table_ipa
            s2_counter))
          (descriptor_uxn (w.descriptor_value va level
            current_table_ipa s2_counter) || uxn_limit)
          (descriptor_pxn (w.descriptor_value va level
            current_table_ipa s2_counter) || pxn_limit)
          is_el0 then
        (⟨false, va, none,
          events ++ [⟨s1_counter + 1, level, current_table_ipa,
            w.table_pa current_table_ipa s2_counter,
            va.get_index level,
            w.descriptor_pa va level current_table_ipa s2_counter,
            w.descriptor_value va level current_table_ipa s2_counter,
            Descriptor.descriptor_type (w.descriptor_value va level
              current_table_ipa s2_counter) level, 0,
            (w.stage2_walker.walk current_table_ipa
              s2_counter).1.events⟩],
          some ⟨.PERMISSION_FAULT, 1, level, va.value,
            some access_type, some va.value, none⟩, none⟩,
          s1_counter + 1,
          (w.stage2_walker.walk current_table_ipa s2_counter).2)
      else
        (⟨true, va,
          some (leaf_final_address (w.descriptor_value va level
            current_table_ipa s2_counter) level va.value),
          events ++ [⟨s1_counter + 1, level, current_table_ipa,
            w.table_pa current_table_ipa s2_counter,
            va.get_index level,
            w.descriptor_pa va level current_table_ipa s2_counter,
            w.descriptor_value va level current_table_ipa s2_counter,
            Descriptor.descriptor_type (w.descriptor_value va level
              current_table_ipa s2_counter) level,
            leaf_output_address (w.descriptor_value va level
              current_table_ipa s2_counter) level,
            (w.stage2_walker.walk current_table_ipa
              s2_counter).1.events⟩],
          none,
          some (AccessPermissions.from_ap_bits
            (descriptor_ap (w.descriptor_value va level
              current_table_ipa s2_counter))
            (descriptor_uxn (w.descriptor_value va level
              current_table_ipa s2_counter) || uxn_limit)
            (descriptor_pxn (w.descriptor_value va level
              current_table_ipa s2_counter) || pxn_limit))⟩,
          s1_counter + 1,
          (w.stage2_walker.walk current_table_ipa s2_counter).2)
    else
      -- Valid word matching no branch: the Python loop body appends
      -- nothing and continues at the next level unchanged (but the
      -- event counters already advanced).
      w.walkFrom va access_type is_el0 fuel (level + 1)
        current_table_ipa uxn_limit pxn_limit ap_limit (s1_counter + 1)
        (w.stage2_walker.walk current_table_ipa s2_counter).2 events

/-- `Stage1Walker.walk`. -/
def Stage1Walker.walk (w : Stage1Walker) (va : VirtualAddress)
    (access_type : AccessType) (is_el0 : Bool) (s2_counter : Nat) :
    Stage1WalkResult × Nat × Nat :=
  w.walkFrom va access_type is_el0 (4 - w.starting_level)
    w.starting_level w.ttbr_base false false 0 0 s2_counter []

/-! ### Orchestrator: simulator/walker.py -/

/-- `WalkStatus` from `simulator/walker.py`. -/
inductive WalkStatus where
  | SUCCESS
  | S1_FAULT
  | S2_FAULT
  | S2_FINAL_FAULT
deriving DecidableEq, Repr

/-- Flattened `WalkEvent` of `simulator/walker.py` (the constant
`event_type = "T"` and the string `purpose` omitted). -/
structure WalkEvent where
  event_id : Nat
  stage : Nat
  level : Nat
  address : Nat
  descriptor_value : Nat
  result : DescriptorType
  output : Nat
deriving DecidableEq, Repr

/-- `WalkResult` from `simulator/walker.py` (register snapshots
omitted). -/
structure WalkResult where
  status : WalkStatus
  input_va : VirtualAddress
  output_pa : Option Nat := none
  ipa : Option Nat := none
  events : List WalkEvent := []
  s1_result : Option Stage1WalkResult := none
  s2_final_result : Option Stage2WalkResult := none
  total_memory_accesses : Nat := 0
  fault : Option FaultRecord := none
  final_permissions : Option AccessPermissions := none
deriving DecidableEq, Repr

/-- `PageTableWalker` field state. -/
structure PageTableWalker where
  register_state : RegisterState
  s1_tables : TranslationTables
  s2_tables : TranslationTables
deriving Repr

/-- The `Stage2Walker` the orchestrator constructs in `__init__`. -/
def PageTableWalker.stage2_walker (w : PageTableWalker) : Stage2Walker :=
  { vttbr_base := w.register_state.get_stage2_table_base
    starting_level := w.register_state.vtcr_el2.starting_level
    translation_tables := w.s2_tables }

/-- Inner loop of the flattening pass of `PageTableWalker.walk`: emit
one numbered flattened event per stage-2 event, threading the global
event counter. -/
def numberS2Events (counter : Nat) :
    List Stage2WalkEvent → List WalkEvent × Nat
  | [] => ([], counter)
  | e :: rest =>
    let counter := counter + 1
    let flat : WalkEvent := ⟨counter, 2, e.level, e.descriptor_address,
      e.descriptor_value, e.descriptor_type, e.output_address⟩
    let tail := numberS2Events counter rest
    (flat :: tail.1, tail.2)

/-- Flattening pass of `PageTableWalker.walk`: for each stage-1 event,
first its nested stage-2 events, then the stage-1 event itself, event
IDs (re)assigned in this flattened order. -/
def flattenS1Events (counter : Nat) :
    List Stage1WalkEvent → List WalkEvent × Nat
  | [] => ([], counter)
  | e :: rest =>
    let nested := numberS2Events counter e.s2_events
    let counter := nested.2 + 1
    let flat : WalkEvent := ⟨counter, 1, e.level,
      e.descriptor_address_pa, e.descriptor_value, e.descriptor_type,
      e.output_address⟩
    let tail := flattenS1Events counter rest
    (nested.1 ++ flat :: tail.1, tail.2)

/-- The `Stage1Walker` the orchestrator constructs in `walk` (TTBR
selected by `uses_ttbr1`, starting level from TCR). -/
def PageTableWalker.stage1_walker (w : PageTableWalker)
    (uses_ttbr1 : Bool) : Stage1Walker :=
  { ttbr_base := w.register_state.get_stage1_table_base uses_ttbr1
    stage2_walker := w.stage2_walker
    starting_level := w.register_state.tcr_el1.starting_level
      uses_ttbr1
    translation_tables := w.s1_tables }

/-- The Python local `s1_result` of `PageTableWalker.walk`: the stage-1
walk, run with both event counters reset to 0. -/
def PageTableWalker.s1_result (w : PageTableWalker)
    (va : VirtualAddress) (access_type : AccessType) (is_el0 : Bool) :
    Stage1WalkResult :=
  ((w.stage1_walker va.uses_ttbr1).walk va access_type is_el0 0).1

/-- The flattening pass of `PageTableWalker.walk` over the stage-1
events (Python locals `events` / `event_counter` before the final
stage-2 walk). -/
def PageTableWalker.s1_flat (w : PageTableWalker) (va : VirtualAddress)
    (access_type : AccessType) (is_el0 : Bool) :
    List WalkEvent × Nat :=
  flattenS1Events 0 (w.s1_result va access_type is_el0).events

/-- The Python local `s2_result` of `PageTableWalker.walk`: the final
stage-2 walk on the stage-1 IPA (`ipa.value` access on a populated
option), its counter continued from the flattening counter. -/
def PageTableWalker.s2_final (w : PageTableWalker)
    (va : VirtualAddress) (access_type : AccessType) (is_el0 : Bool) :
    Stage2WalkResult :=
  (w.stage2_walker.walk
    ((w.s1_result va access_type is_el0).output_ipa.getD 0)
    (w.s1_flat va access_type is_el0).2).1

/-- The flattened-and-numbered final stage-2 events of
`PageTableWalker.walk` with the final counter. -/
def PageTableWalker.final_flat (w : PageTableWalker)
    (va : VirtualAddress) (access_type : AccessType) (is_el0 : Bool) :
    List WalkEvent × Nat :=
  numberS2Events (w.s1_flat va access_type is_el0).2
    (w.s2_final va access_type is_el0).events

/-- `PageTableWalker.walk`: the complete 2-stage translation walk.  The
Python locals are the helper definitions above. -/
def PageTableWalker.walk (w : PageTableWalker) (va : VirtualAddress)
    (access_type : AccessType) (is_el0 : Bool) : WalkResult :=
  if !(w.s1_result va access_type is_el0).success then
    { status := .S1_FAULT
      input_va := va
      events := (w.s1_flat va access_type is_el0).1
      s1_result := some (w.s1_result va access_type is_el0)
      total_memory_accesses := (w.s1_flat va access_type is_el0).2
      fault := (w.s1_result va access_type is_el0).fault }
  else if !(w.s2_final va access_type is_el0).success then
    { status := .S2_FINAL_FAULT
      input_va := va
      ipa := (w.s1_result va access_type is_el0).output_ipa
      events := (w.s1_flat va access_type is_el0).1 ++
        (w.final_flat va access_type is_el0).1
      s1_result := some (w.s1_result va access_type is_el0)
      s2_final_result := some (w.s2_final va access_type is_el0)
      total_memory_accesses := (w.final_flat va access_type is_el0).2
      fault := (w.s2_final va access_type is_el0).fault
      final_permissions :=
        (w.s1_result va access_type is_el0).final_permissions }
  else
    { status := .SUCCESS
      input_va := va
      output_pa := (w.s2_final va access_type is_el0).output_pa
      ipa := (w.s1_result va access_type is_el0).output_ipa
      events := (w.s1_flat va access_type is_el0).1 ++
        (w.final_flat va access_type is_el0).1
      s1_result := some (w.s1_result va access_type is_el0)
      s2_final_result := some (w.s2_final va access_type is_el0)
      total_memory_accesses := (w.final_flat va access_type is_el0).2
      final_permissions :=
        (w.s1_result va access_type is_el0).final_permissions }

/-! ### Concrete scenarios (§8 of the spec, happy path and variants)

Stage-1 tables chain TABLE descriptors at L0/L1/L2 through IPAs
0x40001000 / 0x40002000 / 0x40003000 and end in an L3 PAGE mapping to
IPA page 0x50001000 with AF=1, AP=01; stage-2 tables map every
required IPA by identity through L3 pages.  VA = 0x40201030
(indices 0/1/1/1, page offset 0x030). -/

/-- Stage-2 tables of the happy-path scenario: identity L3 page maps
for the four stage-1 table IPAs and for the final IPA page. -/
def happyS2Tables : TranslationTables :=
  [(0x100000000, 0x100001003),
   (0x100001008, 0x100002003),
   (0x100002000, 0x100003003),
   (0x100002400, 0x100004003),
   (0x100003000, 0x40000003),
   (0x100003008, 0x40001003),
   (0x100003010, 0x40002003),
   (0x100003018, 0x40003003),
   (0x100004008, 0x50001003)]

/-- Stage-1 tables of the happy-path scenario. -/
def happyS1Tables : TranslationTables :=
  [(0x40000000, 0x40001003),
   (0x40001008, 0x40002003),
   (0x40002008, 0x40003003),
   (0x40003008, 0x50001443)]

/-- Registers of the example scenarios: TTBR0 = 0x40000000,
VTTBR = 0x100000000, 48-bit VA/IPA, stage-2 starting level 0. -/
def demoRegs : RegisterState :=
  { ttbr0_el1 := ⟨0x40000000⟩
    ttbr1_el1 := ⟨0x80000000⟩
    vttbr_el2 := ⟨0x100000000⟩
    tcr_el1 := {}
    vtcr_el2 := {} }

/-- The happy-path walker. -/
def happyWalker : PageTableWalker :=
  ⟨demoRegs, happyS1Tables, happyS2Tables⟩

/-- The happy-path walk: EL0 READ of VA 0x40201030. -/
def happyRes : WalkResult :=
  happyWalker.walk ⟨0x40201030, 48⟩ .READ true

/-- Scenario 3 variant: the stage-2 L3 entry translating the stage-1
L2 table IPA 0x40002000 is absent, so the nested stage-2 walk at
stage-1 level 2 faults. -/
def nestedS2FaultS2Tables : TranslationTables :=
  happyS2Tables.filter (fun e => e.1 != 0x100003010)

/-- The walk of the nested-stage-2-fault scenario. -/
def nestedS2FaultRes : WalkResult :=
  (⟨demoRegs, happyS1Tables, nestedS2FaultS2Tables⟩ :
    PageTableWalker).walk ⟨0x40201030, 48⟩ .READ true

/-- Final-stage-2-fault variant: the stage-2 L3 entry for the final
IPA page 0x50001000 is absent, so stage 1 succeeds and the final
IPA -> PA walk faults. -/
def finalS2FaultS2Tables : TranslationTables :=
  happyS2Tables.filter (fun e => e.1 != 0x100004008)

/-- The walk of the final-stage-2-fault scenario. -/
def finalS2FaultRes : WalkResult :=
  (⟨demoRegs, happyS1Tables, finalS2FaultS2Tables⟩ :
    PageTableWalker).walk ⟨0x40201030, 48⟩ .READ true

/-- Scenario 5 variant: stage-1 L0/L1 TABLEs then an L2 BLOCK with
output 0x80000000 (AF=1, AP=01); stage-2 additionally maps the block's
IPA range with an L1 block. VA = 0x15030 (indices 0/0/0, L2 block
offset 0x15030). -/
def l2BlockS1Tables : TranslationTables :=
  [(0x40000000, 0x40001003),
   (0x40001000, 0x40002003),
   (0x40002000, 0x80000441)]

/-- Stage-2 tables of the L2-block scenario. -/
def l2BlockS2Tables : TranslationTables :=
  happyS2Tables ++ [(0x100001010, 0x80000401)]

/-- The walk of the L2-block scenario: EL0 READ of VA 0x15030. -/
def l2BlockRes : WalkResult :=
  (⟨demoRegs, l2BlockS1Tables, l2BlockS2Tables⟩ :
    PageTableWalker).walk ⟨0x15030, 48⟩ .READ true

/-! ### Helper lemmas on the bit operations -/

theorem and_one_eq_mod (v : Nat) : v &&& 1 = v % 2 :=
  Nat.and_one_is_mod v

theorem and_three_eq_mod (v : Nat) : v &&& 3 = v % 4 := by
  have h : (3 : Nat) = 2 ^ 2 - 1 := by norm_num
  rw [h, Nat.and_pow_two_sub_one_eq_mod]

/-- A value classifying as PAGE or BLOCK is valid and is not a table
descriptor. -/
theorem leaf_valid_not_table (v level : Nat)
    (h : (Descriptor.is_page v level || Descriptor.is_block v level)
      = true) :
    Descriptor.is_valid v = true ∧
    Descriptor.is_table v level = false := by
  have h1 := and_one_eq_mod v
  have h3 := and_three_eq_mod v
  have h2 : v % 2 = v % 4 % 2 := by omega
  simp only [Descriptor.is_page, Descriptor.is_block,
    Descriptor.is_valid, Descriptor.is_table, Bool.or_eq_true,
    Bool.and_eq_true, beq_iff_eq, decide_eq_true_eq, h1, h3, h2,
    Bool.and_eq_false_iff, decide_eq_false_iff_not, beq_eq_false_iff_ne,
    ne_eq, not_lt] at h ⊢
  omega

/-- A valid table word classifies as TABLE. -/
theorem table_descriptor_type (v level : Nat)
    (hv : Descriptor.is_valid v = true)
    (ht : Descriptor.is_table v level = true) :
    Descriptor.descriptor_type v level = .TABLE := by
  simp [Descriptor.descriptor_type, hv, ht]

/-- A PAGE-or-BLOCK word classifies as BLOCK or PAGE. -/
theorem leaf_descriptor_type (v level : Nat)
    (h : (Descriptor.is_page v level || Descriptor.is_block v level)
      = true) :
    Descriptor.descriptor_type v level = .BLOCK ∨
    Descriptor.descriptor_type v level = .PAGE := by
  obtain ⟨hv, ht⟩ := leaf_valid_not_table v level h
  rcases Bool.or_eq_true_iff.mp h with hp | hb
  · right
    have hbf : Descriptor.is_block v level = false := by
      simp only [Descriptor.is_page, Bool.and_eq_true, beq_iff_eq] at hp
      simp [Descriptor.is_block, hp.1]
    simp [Descriptor.descriptor_type, hv, ht, hbf, hp]
  · left
    simp [Descriptor.descriptor_type, hv, ht, hb]

/-- Concatenation of adjacent `range'` intervals. -/
theorem range'_append_eq (s a b : Nat) :
    List.range' s a ++ List.range' (s + a) b = List.range' s (a + b) := by
  have := List.range'_append s a b 1
  simpa [Nat.add_comm] using this

/-- The stage-2 loop appends at most one event per remaining level. -/
theorem s2_walkFrom_events_length (w : Stage2Walker) (ipa : Nat) :
    ∀ (fuel level pa c : Nat) (events : List Stage2WalkEvent),
      ((w.walkFrom ipa fuel level pa c events).1.events).length ≤
        events.length + fuel := by
  intro fuel
  induction fuel with
  | zero =>
    intro level pa c events
    simp [Stage2Walker.walkFrom]
  | succ n ih =>
    intro level pa c events
    simp only [Stage2Walker.walkFrom]
    split
    · simp
    split
    · exact le_trans (ih _ _ _ _) (by simp; omega)
    split
    · simp
    · exact le_trans (ih _ _ _ _) (by omega)

/-- A stage-2 walk emits at most 4 events. -/
theorem s2_walk_events_le_four (w : Stage2Walker) (ipa c : Nat) :
    ((w.walk ipa c).1.events).length ≤ 4 := by
  have h := s2_walkFrom_events_length w ipa (4 - w.starting_level)
    w.starting_level w.vttbr_base c []
  simp only [List.length_nil, Nat.zero_add] at h
  exact le_trans h (by omega)

/-- The stage-1 loop appends at most one event per remaining level,
and every event it appends carries at most 4 nested stage-2 events. -/
theorem s1_walkFrom_events_bound (w : Stage1Walker)
    (va : VirtualAddress) (a : AccessType) (el0 : Bool) :
    ∀ (fuel level tbl : Nat) (ux px : Bool) (ap c1 c2 : Nat)
      (events : List Stage1WalkEvent),
      (∀ e ∈ events, e.s2_events.length ≤ 4) →
      ((w.walkFrom va a el0 fuel level tbl ux px ap c1 c2
          events).1.events).length ≤ events.length + fuel ∧
      ∀ e ∈ (w.walkFrom va a el0 fuel level tbl ux px ap c1 c2
          events).1.events, e.s2_events.length ≤ 4 := by
  intro fuel
  induction fuel with
  | zero =>
    intro level tbl ux px ap c1 c2 events hev
    simpa [Stage1Walker.walkFrom] using hev
  | succ n ih =>
    intro level tbl ux px ap c1 c2 events hev
    have hext : ∀ evt : Stage1WalkEvent, evt.s2_events.length ≤ 4 →
        ∀ e ∈ events ++ [evt], e.s2_events.length ≤ 4 := by
      intro evt hevt e he
      rcases List.mem_append.mp he with h | h
      · exact hev e h
      · simp at h; subst h; exact hevt
    have hs2 : ((w.stage2_walker.walk tbl c2).1.events).length ≤ 4 :=
      s2_walk_events_le_four w.stage2_walker tbl c2
    rw [Stage1Walker.walkFrom]
    split
    · -- nested stage-2 fault branch
      exact ⟨by simp <;> omega, hext _ hs2⟩
    · split
      · -- invalid descriptor
        exact ⟨by simp <;> omega, hext _ hs2⟩
      · split
        · -- table descriptor: recurse
          exact ⟨le_trans (ih _ _ _ _ _ _ _ _ (hext _ hs2)).1
            (by simp <;> omega), (ih _ _ _ _ _ _ _ _ (hext _ hs2)).2⟩
        · split
          · -- leaf descriptor
            split
            · -- permission fault
              exact ⟨by simp <;> omega, hext _ hs2⟩
            · -- success
              exact ⟨by simp <;> omega, hext _ hs2⟩
          · -- no branch matched: continue unchanged
            exact ⟨le_trans (ih _ _ _ _ _ _ _ _ hev).1 (by omega),
              (ih _ _ _ _ _ _ _ _ hev).2⟩

/-- `numberS2Events`: one flattened event per stage-2 event, counter
advanced by the length, IDs consecutive from `c + 1`. -/
theorem numberS2Events_spec (l : List Stage2WalkEvent) :
    ∀ c, (numberS2Events c l).1.length = l.length ∧
      (numberS2Events c l).2 = c + l.length ∧
      (numberS2Events c l).1.map WalkEvent.event_id =
        List.range' (c + 1) l.length := by
  induction l with
  | nil => intro c; simp [numberS2Events]
  | cons e rest ih =>
    intro c
    obtain ⟨h1, h2, h3⟩ := ih (c + 1)
    refine ⟨?_, ?_, ?_⟩
    · simp [numberS2Events, h1]
    · simp only [numberS2Events, h2, List.length_cons]
      omega
    · simp only [numberS2Events, List.map_cons, h3, List.length_cons]
      rfl

/-- `flattenS1Events`: the counter ends at `c` plus the number of
flattened events, whose IDs are consecutive from `c + 1`. -/
theorem flattenS1Events_spec (l : List Stage1WalkEvent) :
    ∀ c, (flattenS1Events c l).2 =
        c + (flattenS1Events c l).1.length ∧
      (flattenS1Events c l).1.map WalkEvent.event_id =
        List.range' (c + 1) (flattenS1Events c l).1.length := by
  induction l with
  | nil => intro c; simp [flattenS1Events]
  | cons e rest ih =>
    intro c
    obtain ⟨n1, n2, n3⟩ := numberS2Events_spec e.s2_events c
    obtain ⟨h1, h2⟩ := ih (c + e.s2_events.length + 1)
    simp only [flattenS1Events, n2, List.length_append,
      List.length_cons, List.map_append, List.map_cons, n1, n3, h1, h2]
    constructor
    · omega
    · rw [show c + e.s2_events.length + 1 =
        c + 1 + e.s2_events.length by omega]
      have hcons : (c + 1 + e.s2_events.length) ::
          List.range' (c + 1 + e.s2_events.length + 1)
            (flattenS1Events (c + 1 + e.s2_events.length) rest).1.length
          = List.range' (c + 1 + e.s2_events.length)
            ((flattenS1Events (c + 1 + e.s2_events.length)
              rest).1.length + 1) := rfl
      rw [hcons, range'_append_eq]

/-- `flattenS1Events` emits at most 5 flattened events per stage-1
event when each carries at most 4 nested stage-2 events. -/
theorem flattenS1Events_length_le (l : List Stage1WalkEvent)
    (h : ∀ e ∈ l, e.s2_events.length ≤ 4) :
    ∀ c, (flattenS1Events c l).1.length ≤ 5 * l.length := by
  induction l with
  | nil => intro c; simp [flattenS1Events]
  | cons e rest ih =>
    intro c
    have he : e.s2_events.length ≤ 4 := h e (by simp)
    have hrest := ih (fun e he => h e (by simp [he]))
      ((numberS2Events c e.s2_events).2 + 1)
    obtain ⟨n1, -, -⟩ := numberS2Events_spec e.s2_events c
    simp only [flattenS1Events, List.length_append, List.length_cons,
      n1]
    omega

/-- The stage-1 walk emits at most 4 stage-1 events, each carrying at
most 4 nested stage-2 events. -/
theorem s1_walk_events_le (sw : Stage1Walker) (va : VirtualAddress)
    (a : AccessType) (el0 : Bool) (c2 : Nat) :
    ((sw.walk va a el0 c2).1.events).length ≤ 4 ∧
    ∀ e ∈ (sw.walk va a el0 c2).1.events, e.s2_events.length ≤ 4 := by
  unfold Stage1Walker.walk
  have h := s1_walkFrom_events_bound sw va a el0 (4 - sw.starting_level)
    sw.starting_level sw.ttbr_base false false 0 0 c2 [] (by simp)
  exact ⟨le_trans h.1 (by simp only [List.length_nil]; omega), h.2⟩

/-- Accumulating a limit bit before the tail versus after: the Python
`if bit: limit = True` update commutes with the later disjunction. -/
theorem if_true_or_shift (b u x : Bool) :
    ((if b = true then true else u) || x) = (u || (b || x)) := by
  cases b <;> cases u <;> cases x <;> rfl

/-- Shape of a successful stage-1 loop run: the events it appends are
TABLE events followed by a single BLOCK/PAGE leaf event; the returned
IPA is the leaf's output union; the final permissions combine the
leaf's UXN/PXN with the incoming limits and the uxn/pxn table bits of
the appended TABLE events, while the AP is the leaf's alone. -/
theorem s1_walkFrom_success_shape (w : Stage1Walker)
    (va : VirtualAddress) (a : AccessType) (el0 : Bool) :
    ∀ (fuel level tbl : Nat) (ux px : Bool) (ap c1 c2 : Nat)
      (events : List Stage1WalkEvent),
      (w.walkFrom va a el0 fuel level tbl ux px ap c1 c2
        events).1.success = true →
      ∃ pre leaf,
        (w.walkFrom va a el0 fuel level tbl ux px ap c1 c2
          events).1.events = events ++ pre ++ [leaf] ∧
        (∀ e ∈ pre, e.descriptor_type = .TABLE) ∧
        (leaf.descriptor_type = .BLOCK ∨
          leaf.descriptor_type = .PAGE) ∧
        (w.walkFrom va a el0 fuel level tbl ux px ap c1 c2
          events).1.output_ipa =
          some (leaf_final_address leaf.descriptor_value leaf.level
            va.value) ∧
        (w.walkFrom va a el0 fuel level tbl ux px ap c1 c2
          events).1.final_permissions =
          some (AccessPermissions.from_ap_bits
            (descriptor_ap leaf.descriptor_value)
            (descriptor_uxn leaf.descriptor_value || (ux ||
              pre.any (fun e => uxn_table e.descriptor_value)))
            (descriptor_pxn leaf.descriptor_value || (px ||
              pre.any (fun e => pxn_table e.descriptor_value)))) := by
  intro fuel
  induction fuel with
  | zero =>
    intro level tbl ux px ap c1 c2 events h
    simp [Stage1Walker.walkFrom] at h
  | succ n ih =>
    intro level tbl ux px ap c1 c2 events h
    rw [Stage1Walker.walkFrom] at h ⊢
    cases hb1 : (w.stage2_walker.walk tbl c2).1.success with
    | false => simp [hb1] at h
    | true =>
    cases hb2 : Descriptor.is_valid
        (w.descriptor_value va level tbl c2) with
    | false => simp [hb1, hb2] at h
    | true =>
    cases hb3 : Descriptor.is_table
        (w.descriptor_value va level tbl c2) level with
    | true =>
      simp only [hb1, hb2, hb3, Bool.not_true, Bool.not_false,
        ite_true, ite_false, if_true, if_false,
        Bool.false_eq_true] at h ⊢
      obtain ⟨pre, leaf, h1, h2, h3, h4, h5⟩ :=
        ih _ _ _ _ _ _ _ _ h
      refine ⟨⟨c1 + 1, level, tbl, w.table_pa tbl c2,
        va.get_index level, w.descriptor_pa va level tbl c2,
        w.descriptor_value va level tbl c2,
        Descriptor.descriptor_type (w.descriptor_value va level tbl
          c2) level,
        next_table_address (w.descriptor_value va level tbl c2),
        (w.stage2_walker.walk tbl c2).1.events⟩ :: pre, leaf,
        ?_, ?_, h3, h4, ?_⟩
      · rw [h1]
        simp
      · intro e he
        rcases List.mem_cons.mp he with rfl | he'
        · exact table_descriptor_type _ _ hb2 hb3
        · exact h2 e he'
      · rw [h5]
        simp [List.any_cons, if_true_or_shift, Bool.or_assoc,
          Bool.or_comm, Bool.or_left_comm]
    | false =>
    cases hb4 : (Descriptor.is_page (w.descriptor_value va level tbl
          c2) level
        || Descriptor.is_block (w.descriptor_value va level tbl c2)
          level) with
    | false =>
      simp only [hb1, hb2, hb3, hb4, Bool.not_true, Bool.not_false,
        ite_true, ite_false, if_true, if_false,
        Bool.false_eq_true] at h ⊢
      exact ih _ _ _ _ _ _ _ _ h
    | true =>
    cases hb5 : check_permission a
        (descriptor_ap (w.descriptor_value va level tbl c2))
        (descriptor_uxn (w.descriptor_value va level tbl c2) || ux)
        (descriptor_pxn (w.descriptor_value va level tbl c2) || px)
        el0 with
    | false => simp [hb1, hb2, hb3, hb4, hb5] at h
    | true =>
      simp only [hb1, hb2, hb3, hb4, hb5, Bool.not_true,
        Bool.not_false, ite_true, ite_false, if_true, if_false,
        Bool.false_eq_true] at h ⊢
      refine ⟨[], ⟨c1 + 1, level, tbl, w.table_pa tbl c2,
        va.get_index level, w.descriptor_pa va level tbl c2,
        w.descriptor_value va level tbl c2,
        Descriptor.descriptor_type (w.descriptor_value va level tbl
          c2) level,
        leaf_output_address (w.descriptor_value va level tbl c2)
          level,
        (w.stage2_walker.walk tbl c2).1.events⟩, by simp, by simp,
        leaf_descriptor_type _ _ hb4, rfl, by simp⟩

/-! ### Claim theorems -/

/-- C8: for every value `v` and level 0..3, the (single-valued)
classification follows the spec table: INVALID exactly when bit 0 is
clear or when bits[1:0] = 01 at an illegal level; BLOCK iff
bits[1:0] = 01 at level 1 or 2; TABLE iff bits[1:0] = 11 at level < 3;
PAGE iff bits[1:0] = 11 at level 3. -/
theorem descriptor_type_classification (v level : Nat)
    (hlevel : level ≤ 3) :
    (Descriptor.descriptor_type v level = .INVALID ↔
      v &&& 1 = 0 ∨ (v &&& 3 = 1 ∧ level ≠ 1 ∧ level ≠ 2)) ∧
    (Descriptor.descriptor_type v level = .BLOCK ↔
      v &&& 3 = 1 ∧ (level = 1 ∨ level = 2)) ∧
    (Descriptor.descriptor_type v level = .TABLE ↔
      v &&& 3 = 3 ∧ level < 3) ∧
    (Descriptor.descriptor_type v level = .PAGE ↔
      v &&& 3 = 3 ∧ level = 3) := by
  have h1 := and_one_eq_mod v
  have h3 := and_three_eq_mod v
  have h2 : v % 2 = v % 4 % 2 := by omega
  rcases (show v % 4 = 0 ∨ v % 4 = 1 ∨ v % 4 = 2 ∨ v % 4 = 3 by omega)
    with hv | hv | hv | hv <;>
  · interval_cases level <;>
    · simp only [Descriptor.descriptor_type, Descriptor.is_valid,
        Descriptor.is_table, Descriptor.is_block, Descriptor.is_page,
        h1, h3, h2, hv]
      decide

/-- Witness for C8 at a concrete input: an L2 word with bits[1:0] = 01
classifies as BLOCK. -/
theorem descriptor_type_classification_witness :
    Descriptor.descriptor_type 0x80000441 2 = .BLOCK :=
  ((descriptor_type_classification 0x80000441 2 (by decide)).2.1).mpr
    (by decide)

/-- C2 (refuted; code bug): in the scenario-3 variant the nested
stage-2 walk faults with a stage-2 TRANSLATION fault record, yet the
orchestrator labels the aggregate status `S1_FAULT`; indeed `walk`
never returns `S2_FAULT` for any input. -/
theorem nested_s2_fault_status :
    nestedS2FaultRes.status = .S1_FAULT ∧
    nestedS2FaultRes.fault = some ⟨.TRANSLATION_FAULT, 2, 3, 0x40002000,
      none, none, some 0x40002000⟩ ∧
    ∀ (w : PageTableWalker) (va : VirtualAddress) (a : AccessType)
      (el0 : Bool), (w.walk va a el0).status ≠ .S2_FAULT := by
  refine ⟨by decide, by decide, ?_⟩
  intro w va a el0 h
  unfold PageTableWalker.walk at h
  split at h <;> simp_all <;> split at h <;> simp_all

/-- C1 (refuted on the happy path): the happy-path scenario (stage-1
TABLE at L0/L1/L2, PAGE at L3, every required IPA mapped by stage-2 L3
pages) succeeds with IPA = PA = 0x50001030 but reports 24 memory
accesses, not 20: the spec's `4·4 + 4` budget omits the four stage-1
lookups themselves. -/
theorem happy_path_not_twenty :
    happyRes.status = .SUCCESS ∧
    happyRes.ipa = some 0x50001030 ∧
    happyRes.output_pa = some 0x50001030 ∧
    (happyRes.events.filter (fun e => e.stage == 1)).map
      (fun e => e.result) = [.TABLE, .TABLE, .TABLE, .PAGE] ∧
    happyRes.total_memory_accesses = 24 ∧
    ¬ happyRes.total_memory_accesses ≤ 20 := by
  refine ⟨by decide, by decide, by decide, by decide, by decide,
    by decide⟩

/-- C1 (amended): for the 4 KB granule every invocation of
`PageTableWalker.walk` emits at most `4·(4 + 1) + 4 = 24` events,
success or failure (4 stage-1 levels, each preceded by at most 4
nested stage-2 events, plus at most 4 final stage-2 events); the
happy-path scenario reports `total_memory_accesses = 24`. -/
theorem walk_event_count_bound :
    (∀ (w : PageTableWalker) (va : VirtualAddress) (a : AccessType)
      (el0 : Bool),
      (w.walk va a el0).total_memory_accesses ≤ 24 ∧
      (w.walk va a el0).events.length ≤ 24) ∧
    happyRes.status = .SUCCESS ∧
    happyRes.total_memory_accesses = 24 := by
  refine ⟨?_, by decide, by decide⟩
  intro w va a el0
  obtain ⟨hlen, hall⟩ := s1_walk_events_le
    (w.stage1_walker va.uses_ttbr1) va a el0 0
  have hlen' : (w.s1_result va a el0).events.length ≤ 4 := hlen
  have h5 : (flattenS1Events 0 (w.s1_result va a el0).events).1.length
      ≤ 5 * (w.s1_result va a el0).events.length :=
    flattenS1Events_length_le (w.s1_result va a el0).events hall 0
  have ha : (w.s1_flat va a el0).2 = (w.s1_flat va a el0).1.length := by
    have h0 := (flattenS1Events_spec (w.s1_result va a el0).events 0).1
    simpa [PageTableWalker.s1_flat] using h0
  have hb : (w.s1_flat va a el0).1.length ≤ 20 := by
    simp only [PageTableWalker.s1_flat]
    omega
  have he : (w.s2_final va a el0).events.length ≤ 4 :=
    s2_walk_events_le_four w.stage2_walker
      ((w.s1_result va a el0).output_ipa.getD 0)
      (w.s1_flat va a el0).2
  have hc : (w.final_flat va a el0).2 =
      (w.s1_flat va a el0).2 + (w.s2_final va a el0).events.length := by
    have h0 := (numberS2Events_spec (w.s2_final va a el0).events
      (w.s1_flat va a el0).2).2.1
    simpa [PageTableWalker.final_flat] using h0
  have hd : (w.final_flat va a el0).1.length =
      (w.s2_final va a el0).events.length := by
    have h0 := (numberS2Events_spec (w.s2_final va a el0).events
      (w.s1_flat va a el0).2).1
    simpa [PageTableWalker.final_flat] using h0
  unfold PageTableWalker.walk
  split
  · constructor
    · dsimp only
      omega
    · dsimp only
      omega
  · split
    · constructor
      · dsimp only
        omega
      · dsimp only
        rw [List.length_append]
        omega
    · constructor
      · dsimp only
        omega
      · dsimp only
        rw [List.length_append]
        omega

/-- C7: within one invocation of `PageTableWalker.walk` the flattened
event IDs are exactly the contiguous sequence `1..N` in list order
(hence strictly increasing, without gaps or repeats), where `N` equals
the reported `total_memory_accesses`. -/
theorem walk_event_ids_contiguous (w : PageTableWalker)
    (va : VirtualAddress) (a : AccessType) (el0 : Bool) :
    (w.walk va a el0).events.map WalkEvent.event_id =
      List.range' 1 ((w.walk va a el0).events.length) ∧
    (w.walk va a el0).total_memory_accesses =
      (w.walk va a el0).events.length := by
  obtain ⟨ha1, ha2⟩ := flattenS1Events_spec
    (w.s1_result va a el0).events 0
  obtain ⟨hb1, hb2, hb3⟩ := numberS2Events_spec
    (w.s2_final va a el0).events (w.s1_flat va a el0).2
  have ha1' : (w.s1_flat va a el0).2 = (w.s1_flat va a el0).1.length :=
    by simpa [PageTableWalker.s1_flat] using ha1
  have ha2' : (w.s1_flat va a el0).1.map WalkEvent.event_id =
      List.range' 1 (w.s1_flat va a el0).1.length := by
    simpa [PageTableWalker.s1_flat] using ha2
  have hb1' : (w.final_flat va a el0).1.length =
      (w.s2_final va a el0).events.length := by
    simpa [PageTableWalker.final_flat] using hb1
  have hb2' : (w.final_flat va a el0).2 =
      (w.s1_flat va a el0).2 + (w.s2_final va a el0).events.length := by
    simpa [PageTableWalker.final_flat] using hb2
  have hb3' : (w.final_flat va a el0).1.map WalkEvent.event_id =
      List.range' ((w.s1_flat va a el0).2 + 1)
        (w.s2_final va a el0).events.length := by
    simpa [PageTableWalker.final_flat] using hb3
  unfold PageTableWalker.walk
  split
  · exact ⟨by dsimp only; exact ha2', by dsimp only; exact ha1'⟩
  · split
    · constructor
      · dsimp only
        rw [List.map_append, ha2', hb3', ha1', List.length_append,
          hb1']
        rw [show (w.s1_flat va a el0).1.length + 1 =
          1 + (w.s1_flat va a el0).1.length by omega]
        exact range'_append_eq 1 (w.s1_flat va a el0).1.length
          (w.s2_final va a el0).events.length
      · dsimp only
        rw [List.length_append, hb2', ha1', hb1']
    · constructor
      · dsimp only
        rw [List.map_append, ha2', hb3', ha1', List.length_append,
          hb1']
        rw [show (w.s1_flat va a el0).1.length + 1 =
          1 + (w.s1_flat va a el0).1.length by omega]
        exact range'_append_eq 1 (w.s1_flat va a el0).1.length
          (w.s2_final va a el0).events.length
      · dsimp only
        rw [List.length_append, hb2', ha1', hb1']

/-- C3 counterexample: in the L2-block scenario the stage-1 L2 word
0x80000441 is a BLOCK with output address 0x0000000080000000, the VA's
L2 block offset is 0x15030, and the walk returns IPA 0x80015030 — not
the 0x8015_5030 the claim names for this offset. -/
theorem l2_block_ipa_concrete :
    Descriptor.descriptor_type 0x80000441 2 = .BLOCK ∧
    block_output_address 0x80000441 2 = 0x80000000 ∧
    ((0x15030 : Nat) &&& 0x1FFFFF) = 0x15030 ∧
    read_descriptor l2BlockS1Tables 0x40002000 = 0x80000441 ∧
    l2BlockRes.status = .SUCCESS ∧
    l2BlockRes.ipa = some 0x80015030 ∧
    l2BlockRes.ipa ≠ some 0x80155030 := by
  refine ⟨by decide, by decide, by decide, by decide, by decide,
    by decide, by decide⟩

/-- C3 (amended): whenever the stage-1 walk processes its level-2
iteration with a BLOCK word (bits[1:0] = 01) that passes the
permission gate, the returned IPA is the descriptor's output address
(`value &&& 0x0000FFFFFFE00000`) OR-ed with `va &&& 0x1FFFFF`; for
output 0x80000000 and offset 0x15030 that is 0x80015030. -/
theorem s1_l2_block_ipa (w : Stage1Walker) (va : VirtualAddress)
    (a : AccessType) (el0 : Bool) (fuel tbl : Nat) (ux px : Bool)
    (ap c1 c2 : Nat) (events : List Stage1WalkEvent)
    (hs2 : (w.stage2_walker.walk tbl c2).1.success = true)
    (hd : w.descriptor_value va 2 tbl c2 &&& 3 = 1)
    (hperm : check_permission a
      (descriptor_ap (w.descriptor_value va 2 tbl c2))
      (descriptor_uxn (w.descriptor_value va 2 tbl c2) || ux)
      (descriptor_pxn (w.descriptor_value va 2 tbl c2) || px)
      el0 = true) :
    (w.walkFrom va a el0 (fuel + 1) 2 tbl ux px ap c1 c2
      events).1.success = true ∧
    (w.walkFrom va a el0 (fuel + 1) 2 tbl ux px ap c1 c2
      events).1.output_ipa =
      some ((w.descriptor_value va 2 tbl c2 &&& 0x0000FFFFFFE00000) |||
        (va.value &&& 0x1FFFFF)) := by
  have h3 := and_three_eq_mod (w.descriptor_value va 2 tbl c2)
  have h1 := and_one_eq_mod (w.descriptor_value va 2 tbl c2)
  have hv : Descriptor.is_valid (w.descriptor_value va 2 tbl c2)
      = true := by
    simp only [Descriptor.is_valid, beq_iff_eq]
    omega
  have ht : Descriptor.is_table (w.descriptor_value va 2 tbl c2) 2
      = false := by
    simp [Descriptor.is_table, hd]
  have hp : Descriptor.is_page (w.descriptor_value va 2 tbl c2) 2
      = false := by
    simp [Descriptor.is_page]
  have hb : Descriptor.is_block (w.descriptor_value va 2 tbl c2) 2
      = true := by
    simp [Descriptor.is_block, hd]
  rw [Stage1Walker.walkFrom]
  simp only [hs2, hv, ht, hp, hb, hperm, Bool.not_true, Bool.not_false,
    Bool.false_or, Bool.true_or, if_true, if_false, ite_true,
    ite_false, Bool.false_eq_true, Bool.true_eq_false]
  refine ⟨trivial, ?_⟩
  simp [leaf_final_address, leaf_output_address, block_output_address,
    calculate_block_offset, hb]

/-- Witness for C3 at concrete inputs: a one-entry stage-2 table
translating table IPA 0 to PA 0x2000 and the L2 word 0x80000441 at PA
0x2000 give IPA 0x80015030 for VA 0x15030. -/
theorem s1_l2_block_ipa_witness :
    ((⟨0, ⟨0x1000, 3, [(0x1000, 0x2003)]⟩, 2,
        [(0x2000, 0x80000441)]⟩ :
      Stage1Walker).walkFrom ⟨0x15030, 48⟩ .READ true 2 2 0 false false
      0 0 0 []).1.output_ipa = some 0x80015030 := by
  have h := s1_l2_block_ipa
    (⟨0, ⟨0x1000, 3, [(0x1000, 0x2003)]⟩, 2, [(0x2000, 0x80000441)]⟩ :
      Stage1Walker) ⟨0x15030, 48⟩ .READ true 1 0 false false 0 0 0 []
    (by decide) (by decide) (by decide)
  rw [h.2]
  decide

/-- C5: `check_permission` implements exactly the spec's AP table (EL1
read always allowed; EL1 write iff AP ∈ {00, 01}; EL0 read iff
AP ∈ {01, 11}; EL0 write iff AP = 01; EXECUTE gated by UXN at EL0 and
PXN at EL1), and a denial at a stage-1 leaf returns a fault record
{PERMISSION, stage 1, leaf level, access_type, far_el1 = va} with no
IPA. -/
theorem s1_permission_gate :
    (∀ ap : Fin 4, ∀ uxn pxn : Bool,
      check_permission .READ ap.val uxn pxn false = true ∧
      check_permission .WRITE ap.val uxn pxn false =
        (ap.val == 0b00 || ap.val == 0b01) ∧
      check_permission .READ ap.val uxn pxn true =
        (ap.val == 0b01 || ap.val == 0b11) ∧
      check_permission .WRITE ap.val uxn pxn true = (ap.val == 0b01) ∧
      check_permission .EXECUTE ap.val uxn pxn true = !uxn ∧
      check_permission .EXECUTE ap.val uxn pxn false = !pxn) ∧
    ∀ (w : Stage1Walker) (va : VirtualAddress) (a : AccessType)
      (el0 : Bool) (fuel level tbl : Nat) (ux px : Bool)
      (ap c1 c2 : Nat) (events : List Stage1WalkEvent),
      (w.stage2_walker.walk tbl c2).1.success = true →
      (Descriptor.is_page (w.descriptor_value va level tbl c2) level
        || Descriptor.is_block (w.descriptor_value va level tbl c2)
          level) = true →
      check_permission a
        (descriptor_ap (w.descriptor_value va level tbl c2))
        (descriptor_uxn (w.descriptor_value va level tbl c2) || ux)
        (descriptor_pxn (w.descriptor_value va level tbl c2) || px)
        el0 = false →
      (w.walkFrom va a el0 (fuel + 1) level tbl ux px ap c1 c2
        events).1.success = false ∧
      (w.walkFrom va a el0 (fuel + 1) level tbl ux px ap c1 c2
        events).1.output_ipa = none ∧
      (w.walkFrom va a el0 (fuel + 1) level tbl ux px ap c1 c2
        events).1.fault = some ⟨.PERMISSION_FAULT, 1, level, va.value,
          some a, some va.value, none⟩ := by
  constructor
  · decide
  · intro w va a el0 fuel level tbl ux px ap c1 c2 events hs2 hleaf
      hperm
    obtain ⟨hv, ht⟩ := leaf_valid_not_table _ _ hleaf
    rw [Stage1Walker.walkFrom]
    simp only [hs2, hv, ht, hleaf, hperm, Bool.not_true, Bool.not_false,
      if_true, if_false, ite_true, ite_false]
    exact ⟨rfl, rfl, rfl⟩

/-- Witness for C5 at concrete inputs: an EL0 WRITE to an AP = 10 leaf
page is denied with a stage-1 level-3 PERMISSION fault. -/
theorem s1_permission_gate_witness :
    ((⟨0, ⟨0x1000, 3, [(0x1000, 0x2003)]⟩, 3,
        [(0x2000, 0x50001483)]⟩ :
      Stage1Walker).walkFrom ⟨0, 48⟩ .WRITE true 1 3 0 false false 0 0 0
      []).1.fault = some ⟨.PERMISSION_FAULT, 1, 3, 0, some .WRITE,
        some 0, none⟩ :=
  (s1_permission_gate.2
    (⟨0, ⟨0x1000, 3, [(0x1000, 0x2003)]⟩, 3, [(0x2000, 0x50001483)]⟩ :
      Stage1Walker) ⟨0, 48⟩ .WRITE true 0 3 0 false false 0 0 0 []
    (by decide) (by decide) (by decide)).2.2

/-- C6: a descriptor address absent from the translation-table mapping
reads as 0, which classifies INVALID, and the walk terminates with a
TRANSLATION fault carrying the stage and level of that fetch, faulting
address equal to the input address (far_el2 = ipa for stage 2,
far_el1 = va for stage 1), the faulting level's event last in the
event list. -/
theorem absent_descriptor_translation_fault :
    (∀ (w : Stage2Walker) (ipa fuel level pa c : Nat)
      (events : List Stage2WalkEvent),
      w.translation_tables.find? (fun e => e.1 ==
        Stage2Walker.descriptor_addr ipa level pa) = none →
      read_descriptor w.translation_tables
        (Stage2Walker.descriptor_addr ipa level pa) = 0 ∧
      Descriptor.descriptor_type 0 level = .INVALID ∧
      (w.walkFrom ipa (fuel + 1) level pa c events).1.success = false ∧
      (w.walkFrom ipa (fuel + 1) level pa c events).1.fault =
        some ⟨.TRANSLATION_FAULT, 2, level, ipa, none, none,
          some ipa⟩ ∧
      ((w.walkFrom ipa (fuel + 1) level pa c
          events).1.events).getLast? =
        some ⟨c + 1, level, pa, ipa_get_index ipa level,
          Stage2Walker.descriptor_addr ipa level pa, 0, .INVALID, 0⟩) ∧
    ∀ (w : Stage1Walker) (va : VirtualAddress) (a : AccessType)
      (el0 : Bool) (fuel level tbl : Nat) (ux px : Bool)
      (ap c1 c2 : Nat) (events : List Stage1WalkEvent),
      (w.stage2_walker.walk tbl c2).1.success = true →
      w.translation_tables.find? (fun e => e.1 ==
        w.descriptor_pa va level tbl c2) = none →
      (w.walkFrom va a el0 (fuel + 1) level tbl ux px ap c1 c2
        events).1.success = false ∧
      (w.walkFrom va a el0 (fuel + 1) level tbl ux px ap c1 c2
        events).1.fault = some ⟨.TRANSLATION_FAULT, 1, level, va.value,
          none, some va.value, none⟩ ∧
      ((w.walkFrom va a el0 (fuel + 1) level tbl ux px ap c1 c2
          events).1.events).getLast? =
        some ⟨c1 + 1, level, tbl, w.table_pa tbl c2,
          va.get_index level, w.descriptor_pa va level tbl c2, 0,
          .INVALID, 0, (w.stage2_walker.walk tbl c2).1.events⟩ := by
  constructor
  · intro w ipa fuel level pa c events hfind
    have hread : read_descriptor w.translation_tables
        (Stage2Walker.descriptor_addr ipa level pa) = 0 := by
      simp [read_descriptor, hfind]
    have hdv : w.descriptor_value ipa level pa = 0 := hread
    refine ⟨hread, by simp [Descriptor.descriptor_type,
      Descriptor.is_valid], ?_, ?_, ?_⟩ <;>
    · rw [Stage2Walker.walkFrom]
      simp only [hdv, show Descriptor.is_valid 0 = false from rfl,
        Bool.not_false, if_true, ite_true, Descriptor.descriptor_type,
        Bool.not_true, if_false, ite_false]
      try simp
  · intro w va a el0 fuel level tbl ux px ap c1 c2 events hs2 hfind
    have hdv : w.descriptor_value va level tbl c2 = 0 := by
      simp [Stage1Walker.descriptor_value, read_descriptor, hfind]
    refine ⟨?_, ?_, ?_⟩ <;>
    · rw [Stage1Walker.walkFrom]
      simp only [hs2, hdv, show Descriptor.is_valid 0 = false from rfl,
        Bool.not_false, Bool.not_true, if_true, if_false, ite_true,
        ite_false, Descriptor.descriptor_type]
      try simp

/-- Witness for C6 at concrete inputs: an empty stage-2 table store
faults at the requested level with far_el2 = ipa, and an absent
stage-1 descriptor (with a working nested stage-2 translation) faults
with far_el1 = va. -/
theorem absent_descriptor_translation_fault_witness :
    ((⟨0x1000, 0, []⟩ : Stage2Walker).walkFrom 5 1 2 0x1000 0
      []).1.fault = some ⟨.TRANSLATION_FAULT, 2, 2, 5, none, none,
        some 5⟩ ∧
    ((⟨0, ⟨0x1000, 3, [(0x1000, 0x2003)]⟩, 3, []⟩ :
      Stage1Walker).walkFrom ⟨7, 48⟩ .READ true 1 3 0 false false 0 0 0
      []).1.fault = some ⟨.TRANSLATION_FAULT, 1, 3, 7, none, some 7,
        none⟩ :=
  ⟨(absent_descriptor_translation_fault.1 (⟨0x1000, 0, []⟩ :
      Stage2Walker) 5 0 2 0x1000 0 [] (by decide)).2.2.2.1,
   (absent_descriptor_translation_fault.2
      (⟨0, ⟨0x1000, 3, [(0x1000, 0x2003)]⟩, 3, []⟩ : Stage1Walker)
      ⟨7, 48⟩ .READ true 0 3 0 false false 0 0 0 [] (by decide)
      (by decide)).2.1⟩

/-- C4: on reaching a leaf the stage-1 walker returns final
permissions built from the leaf's AP unchanged (no use of the
accumulated `ap_limit`), with final UXN the leaf UXN OR-ed with the
`uxn_table` bits of every traversed table descriptor, and final PXN
likewise; the traversed events are TABLE events followed by the
BLOCK/PAGE leaf. -/
theorem s1_final_permissions_combination (sw : Stage1Walker)
    (va : VirtualAddress) (a : AccessType) (el0 : Bool) (c2 : Nat)
    (h : (sw.walk va a el0 c2).1.success = true) :
    ∃ pre leaf,
      (sw.walk va a el0 c2).1.events = pre ++ [leaf] ∧
      (∀ e ∈ pre, e.descriptor_type = .TABLE) ∧
      (leaf.descriptor_type = .BLOCK ∨ leaf.descriptor_type = .PAGE) ∧
      (sw.walk va a el0 c2).1.final_permissions =
        some (AccessPermissions.from_ap_bits
          (descriptor_ap leaf.descriptor_value)
          (descriptor_uxn leaf.descriptor_value ||
            pre.any (fun e => uxn_table e.descriptor_value))
          (descriptor_pxn leaf.descriptor_value ||
            pre.any (fun e => pxn_table e.descriptor_value))) := by
  unfold Stage1Walker.walk at h ⊢
  obtain ⟨pre, leaf, h1, h2, h3, h4, h5⟩ :=
    s1_walkFrom_success_shape sw va a el0 _ _ _ _ _ _ _ _ _ h
  refine ⟨pre, leaf, by simpa using h1, h2, h3, ?_⟩
  rw [h5]
  simp

/-- Witness for C4: the happy-path stage-1 walk succeeds and its
permissions decompose per the theorem. -/
theorem s1_final_permissions_combination_witness :
    ∃ pre leaf,
      ((happyWalker.stage1_walker false).walk ⟨0x40201030, 48⟩ .READ
        true 0).1.events = pre ++ [leaf] ∧
      (∀ e ∈ pre, e.descriptor_type = .TABLE) ∧
      (leaf.descriptor_type = .BLOCK ∨ leaf.descriptor_type = .PAGE) ∧
      ((happyWalker.stage1_walker false).walk ⟨0x40201030, 48⟩ .READ
        true 0).1.final_permissions =
        some (AccessPermissions.from_ap_bits
          (descriptor_ap leaf.descriptor_value)
          (descriptor_uxn leaf.descriptor_value ||
            pre.any (fun e => uxn_table e.descriptor_value))
          (descriptor_pxn leaf.descriptor_value ||
            pre.any (fun e => pxn_table e.descriptor_value))) :=
  s1_final_permissions_combination (happyWalker.stage1_walker false)
    ⟨0x40201030, 48⟩ .READ true 0 (by decide)

/-- A successful stage-1 walk reports an IPA and final permissions. -/
theorem s1_walk_success_some (sw : Stage1Walker) (va : VirtualAddress)
    (a : AccessType) (el0 : Bool) (c2 : Nat)
    (h : (sw.walk va a el0 c2).1.success = true) :
    (sw.walk va a el0 c2).1.output_ipa.isSome = true ∧
    (sw.walk va a el0 c2).1.final_permissions.isSome = true := by
  unfold Stage1Walker.walk at h ⊢
  obtain ⟨pre, leaf, h1, h2, h3, h4, h5⟩ :=
    s1_walkFrom_success_shape sw va a el0 _ _ _ _ _ _ _ _ _ h
  rw [h4, h5]
  exact ⟨rfl, rfl⟩

/-- C10: an `S2_FINAL_FAULT` result still carries the stage-1 IPA and
the stage-1 combined permissions but no PA, whereas an `S1_FAULT`
result carries no IPA, no PA and no permissions. -/
theorem walk_fault_result_fields (w : PageTableWalker)
    (va : VirtualAddress) (a : AccessType) (el0 : Bool) :
    ((w.walk va a el0).status = .S2_FINAL_FAULT →
      (w.walk va a el0).output_pa = none ∧
      (w.walk va a el0).ipa = (w.s1_result va a el0).output_ipa ∧
      (w.walk va a el0).ipa.isSome = true ∧
      (w.walk va a el0).final_permissions =
        (w.s1_result va a el0).final_permissions ∧
      (w.walk va a el0).final_permissions.isSome = true) ∧
    ((w.walk va a el0).status = .S1_FAULT →
      (w.walk va a el0).ipa = none ∧
      (w.walk va a el0).output_pa = none ∧
      (w.walk va a el0).final_permissions = none) := by
  cases hs : (w.s1_result va a el0).success with
  | false =>
    simp only [PageTableWalker.walk, hs, Bool.not_false, ite_true,
      if_true]
    exact ⟨fun hst => by simp at hst, fun _ => ⟨by trivial, by trivial, by trivial⟩⟩
  | true =>
    cases hs2 : (w.s2_final va a el0).success with
    | false =>
      simp only [PageTableWalker.walk, hs, hs2, Bool.not_true,
        Bool.not_false, ite_true, ite_false, if_true, if_false,
        Bool.false_eq_true]
      obtain ⟨hipa, hperm⟩ := s1_walk_success_some
        (w.stage1_walker va.uses_ttbr1) va a el0 0 hs
      exact ⟨fun _ => ⟨by trivial, by trivial, hipa, by trivial, hperm⟩,
        fun hst => by simp at hst⟩
    | true =>
      simp only [PageTableWalker.walk, hs, hs2, Bool.not_true,
        Bool.not_false, ite_true, ite_false, if_true, if_false,
        Bool.false_eq_true]
      exact ⟨fun hst => by simp at hst, fun hst => by simp at hst⟩

/-- Witness for C10: the final-stage-2-fault scenario keeps IPA and
permissions without a PA; the nested-stage-2-fault scenario reports
none of them. -/
theorem walk_fault_result_fields_witness :
    (finalS2FaultRes.output_pa = none ∧
      finalS2FaultRes.ipa.isSome = true ∧
      finalS2FaultRes.final_permissions.isSome = true) ∧
    (nestedS2FaultRes.ipa = none ∧
      nestedS2FaultRes.output_pa = none ∧
      nestedS2FaultRes.final_permissions = none) := by
  constructor
  · have h := (walk_fault_result_fields
      ⟨demoRegs, happyS1Tables, finalS2FaultS2Tables⟩
      ⟨0x40201030, 48⟩ .READ true).1 (by decide)
    exact ⟨h.1, h.2.2.1, h.2.2.2.2⟩
  · exact (walk_fault_result_fields
      ⟨demoRegs, happyS1Tables, nestedS2FaultS2Tables⟩
      ⟨0x40201030, 48⟩ .READ true).2 (by decide)

/-- Every fault record the stage-2 loop constructs is a stage-2
TRANSLATION fault. -/
theorem s2_walkFrom_fault_kind (w : Stage2Walker) (ipa : Nat) :
    ∀ (fuel level pa c : Nat) (events : List Stage2WalkEvent)
      (f : FaultRecord),
      (w.walkFrom ipa fuel level pa c events).1.fault = some f →
      f.fault_type = .TRANSLATION_FAULT ∧ f.stage = 2 := by
  intro fuel
  induction fuel with
  | zero =>
    intro level pa c events f h
    rw [Stage2Walker.walkFrom] at h
    simp only [Option.some.injEq] at h
    subst h
    exact ⟨rfl, rfl⟩
  | succ n ih =>
    intro level pa c events f h
    rw [Stage2Walker.walkFrom] at h
    cases hb1 : Descriptor.is_valid (w.descriptor_value ipa level pa)
    with
    | false =>
      simp only [hb1, Bool.not_false, ite_true, if_true,
        Option.some.injEq] at h
      subst h
      exact ⟨rfl, rfl⟩
    | true =>
    cases hb2 : Descriptor.is_table (w.descriptor_value ipa level pa)
        level with
    | true =>
      simp only [hb1, hb2, Bool.not_true, Bool.not_false, ite_true,
        ite_false, if_true, if_false, Bool.false_eq_true] at h
      exact ih _ _ _ _ _ h
    | false =>
    cases hb3 : (Descriptor.is_page (w.descriptor_value ipa level pa)
          level
        || Descriptor.is_block (w.descriptor_value ipa level pa)
          level) with
    | true =>
      simp only [hb1, hb2, hb3, Bool.not_true, Bool.not_false,
        ite_true, ite_false, if_true, if_false,
        Bool.false_eq_true] at h
      exact Option.noConfusion h
    | false =>
      simp only [hb1, hb2, hb3, Bool.not_true, Bool.not_false,
        ite_true, ite_false, if_true, if_false,
        Bool.false_eq_true] at h
      exact ih _ _ _ _ _ h

/-- Every fault record a stage-2 walk returns is a stage-2 TRANSLATION
fault. -/
theorem s2_walk_fault_kind (w : Stage2Walker) (ipa c : Nat)
    (f : FaultRecord) (h : (w.walk ipa c).1.fault = some f) :
    f.fault_type = .TRANSLATION_FAULT ∧ f.stage = 2 := by
  unfold Stage2Walker.walk at h
  exact s2_walkFrom_fault_kind w ipa _ _ _ _ _ f h

/-- Every fault record the stage-1 loop returns is either a
TRANSLATION fault (stage 1 or a propagated stage-2 one) or a stage-1
PERMISSION fault. -/
theorem s1_walkFrom_fault_kind (w : Stage1Walker)
    (va : VirtualAddress) (a : AccessType) (el0 : Bool) :
    ∀ (fuel level tbl : Nat) (ux px : Bool) (ap c1 c2 : Nat)
      (events : List Stage1WalkEvent) (f : FaultRecord),
      (w.walkFrom va a el0 fuel level tbl ux px ap c1 c2
        events).1.fault = some f →
      (f.fault_type = .TRANSLATION_FAULT ∨
        f.fault_type = .PERMISSION_FAULT) ∧
      (f.fault_type = .PERMISSION_FAULT → f.stage = 1) := by
  intro fuel
  induction fuel with
  | zero =>
    intro level tbl ux px ap c1 c2 events f h
    rw [Stage1Walker.walkFrom] at h
    simp only [Option.some.injEq] at h
    subst h
    exact ⟨Or.inl rfl, fun _ => rfl⟩
  | succ n ih =>
    intro level tbl ux px ap c1 c2 events f h
    rw [Stage1Walker.walkFrom] at h
    cases hb1 : (w.stage2_walker.walk tbl c2).1.success with
    | false =>
      simp only [hb1, Bool.not_false, ite_true, if_true] at h
      obtain ⟨ht, -⟩ := s2_walkFrom_fault_kind w.stage2_walker tbl
        _ _ _ _ _ f h
      exact ⟨Or.inl ht, fun hp => by
        rw [hp] at ht
        exact absurd ht (by decide)⟩
    | true =>
    cases hb2 : Descriptor.is_valid (w.descriptor_value va level tbl
        c2) with
    | false =>
      simp only [hb1, hb2, Bool.not_true, Bool.not_false, ite_true,
        ite_false, if_true, if_false, Bool.false_eq_true,
        Option.some.injEq] at h
      subst h
      exact ⟨Or.inl rfl, fun _ => rfl⟩
    | true =>
    cases hb3 : Descriptor.is_table (w.descriptor_value va level tbl
        c2) level with
    | true =>
      simp only [hb1, hb2, hb3, Bool.not_true, Bool.not_false,
        ite_true, ite_false, if_true, if_false,
        Bool.false_eq_true] at h
      exact ih _ _ _ _ _ _ _ _ _ h
    | false =>
    cases hb4 : (Descriptor.is_page (w.descriptor_value va level tbl
          c2) level
        || Descriptor.is_block (w.descriptor_value va level tbl c2)
          level) with
    | false =>
      simp only [hb1, hb2, hb3, hb4, Bool.not_true, Bool.not_false,
        ite_true, ite_false, if_true, if_false,
        Bool.false_eq_true] at h
      exact ih _ _ _ _ _ _ _ _ _ h
    | true =>
    cases hb5 : check_permission a
        (descriptor_ap (w.descriptor_value va level tbl c2))
        (descriptor_uxn (w.descriptor_value va level tbl c2) || ux)
        (descriptor_pxn (w.descriptor_value va level tbl c2) || px)
        el0 with
    | false =>
      simp only [hb1, hb2, hb3, hb4, hb5, Bool.not_true,
        Bool.not_false, ite_true, ite_false, if_true, if_false,
        Bool.false_eq_true, Option.some.injEq] at h
      subst h
      exact ⟨Or.inr rfl, fun _ => rfl⟩
    | true =>
      simp only [hb1, hb2, hb3, hb4, hb5, Bool.not_true,
        Bool.not_false, ite_true, ite_false, if_true, if_false,
        Bool.false_eq_true] at h
      exact Option.noConfusion h

/-- C9: no walk ever returns an ACCESS_FLAG or ADDRESS_SIZE fault;
every stage-2 fault (nested or final) is a TRANSLATION fault (S2AP/XN
are never consulted), and a PERMISSION fault can only arise at stage
1. -/
theorem fault_kinds_restricted :
    (∀ (s2w : Stage2Walker) (ipa c : Nat) (f : FaultRecord),
      (s2w.walk ipa c).1.fault = some f →
      f.fault_type = .TRANSLATION_FAULT ∧ f.stage = 2) ∧
    ∀ (w : PageTableWalker) (va : VirtualAddress) (a : AccessType)
      (el0 : Bool) (f : FaultRecord),
      (w.walk va a el0).fault = some f →
      f.fault_type ≠ .ACCESS_FLAG_FAULT ∧
      f.fault_type ≠ .ADDRESS_SIZE_FAULT ∧
      (f.fault_type = .PERMISSION_FAULT → f.stage = 1) := by
  refine ⟨s2_walk_fault_kind, ?_⟩
  intro w va a el0 f h
  cases hs : (w.s1_result va a el0).success with
  | false =>
    simp only [PageTableWalker.walk, hs, Bool.not_false, ite_true,
      if_true] at h
    have h1 := s1_walkFrom_fault_kind
      (w.stage1_walker va.uses_ttbr1) va a el0 _ _ _ _ _ _ _ _ _ f h
    refine ⟨?_, ?_, h1.2⟩ <;>
      rcases h1.1 with h' | h' <;> simp [h']
  | true =>
    cases hs2 : (w.s2_final va a el0).success with
    | false =>
      simp only [PageTableWalker.walk, hs, hs2, Bool.not_true,
        Bool.not_false, ite_true, ite_false, if_true, if_false,
        Bool.false_eq_true] at h
      obtain ⟨ht, -⟩ := s2_walk_fault_kind w.stage2_walker
        ((w.s1_result va a el0).output_ipa.getD 0)
        (w.s1_flat va a el0).2 f h
      exact ⟨by simp [ht], by simp [ht], fun hp => by
        rw [hp] at ht
        exact absurd ht (by decide)⟩
    | true =>
      simp only [PageTableWalker.walk, hs, hs2, Bool.not_true,
        Bool.not_false, ite_true, ite_false, if_true, if_false,
        Bool.false_eq_true] at h
      exact Option.noConfusion h

/-- Witness for C9: the nested-stage-2-fault scenario's fault record
is a stage-2 TRANSLATION fault, neither ACCESS_FLAG nor ADDRESS_SIZE,
both for the raw stage-2 walk and for the full walk. -/
theorem fault_kinds_restricted_witness :
    ((⟨.TRANSLATION_FAULT, 2, 3, 0x40002000, none, none,
        some 0x40002000⟩ : FaultRecord).fault_type =
          .TRANSLATION_FAULT ∧
      (⟨.TRANSLATION_FAULT, 2, 3, 0x40002000, none, none,
        some 0x40002000⟩ : FaultRecord).stage = 2) ∧
    ((⟨.TRANSLATION_FAULT, 2, 3, 0x40002000, none, none,
        some 0x40002000⟩ : FaultRecord).fault_type ≠
          .ACCESS_FLAG_FAULT ∧
      (⟨.TRANSLATION_FAULT, 2, 3, 0x40002000, none, none,
        some 0x40002000⟩ : FaultRecord).fault_type ≠
          .ADDRESS_SIZE_FAULT) := by
  constructor
  · exact fault_kinds_restricted.1
      (PageTableWalker.stage2_walker
        ⟨demoRegs, happyS1Tables, nestedS2FaultS2Tables⟩)
      0x40002000 0
      ⟨.TRANSLATION_FAULT, 2, 3, 0x40002000, none, none,
        some 0x40002000⟩ (by decide)
  · have h := fault_kinds_restricted.2
      ⟨demoRegs, happyS1Tables, nestedS2FaultS2Tables⟩
      ⟨0x40201030, 48⟩ .READ true
      ⟨.TRANSLATION_FAULT, 2, 3, 0x40002000, none, none,
        some 0x40002000⟩ (by decide)
    exact ⟨h.1, h.2.1⟩

end PTW
